import Mathlib

/-!
Shallow embedding of the login-system client (src/unnamed/part_001, the App
component with Firebase login/signup, email-verification gate and client-side
rate limiting), together with proofs of the specified properties.

Timestamps are modelled as natural numbers (milliseconds, as produced by
`Date.now()`).  The browser localStorage entries `loginAttempts` and
`lockoutUntil` are modelled as a record of two optional naturals (absent key =
`none`; `parseInt(x || '0')` = `Option.getD 0`).  Asynchronous provider calls
(Firebase sign-in / sign-up / reload / send-verification) are modelled by
passing the provider's result as an explicit argument to each handler.
-/

namespace LoginSystem

/-- `const MAX_ATTEMPTS = 3;` -/
def MAX_ATTEMPTS : Nat := 3

/-- `const COOLDOWN_SECONDS = 30;` (30 seconds lockout) -/
def COOLDOWN_SECONDS : Nat := 30

/-- A Firebase user record, reduced to the single field the gate reads. -/
structure User where
  emailVerified : Bool
deriving DecidableEq, Repr

/-- The browser localStorage keys used by the app: `loginAttempts` and
`lockoutUntil`.  `none` models an absent key (`localStorage.removeItem`). -/
structure Storage where
  loginAttempts : Option Nat
  lockoutUntil : Option Nat
deriving DecidableEq, Repr

/-- The React component state of `App` (part_001), plus the persisted storage
and a ghost flag `intervalActive` recording whether the lockout-countdown
interval of the `[lockoutTime]` effect is currently installed (the effect
installs it exactly when `lockoutTime > Date.now()` at the moment it runs). -/
structure AppState where
  attempts : Nat
  lockoutTime : Nat
  storage : Storage
  intervalActive : Bool
  isLogin : Bool
  loading : Bool
  error : String
  message : String
  timeLeft : Nat
  email : String
  password : String
  confirmPassword : String
  user : Option User
  protectedData : String
deriving DecidableEq, Repr

/-- State initializers: `attempts` from `parseInt(localStorage.getItem('loginAttempts') || '0')`,
`lockoutTime` from `parseInt(localStorage.getItem('lockoutUntil') || '0')`; the
mount-time run of the `[lockoutTime]` effect installs the countdown interval
iff `lockoutTime > Date.now()` (`now` is the mount instant). -/
def initApp (storage : Storage) (now : Nat) : AppState :=
  let attempts := storage.loginAttempts.getD 0
  let lockoutTime := storage.lockoutUntil.getD 0
  { attempts := attempts
    lockoutTime := lockoutTime
    storage := storage
    intervalActive := decide (now < lockoutTime)
    isLogin := true
    loading := false
    error := ""
    message := ""
    timeLeft := 0
    email := ""
    password := ""
    confirmPassword := ""
    user := none
    protectedData := "" }

/-- `const isLocked = lockoutTime > Date.now();` -/
def isLocked (s : AppState) (now : Nat) : Bool :=
  decide (now < s.lockoutTime)

/-- `Math.ceil((lockoutTime - Date.now()) / 1000)`, clamped at 0: in the source
this is the timer's `remaining`; a non-positive JS value corresponds to 0 here
(`lockoutTime - now` truncates at 0 in Nat), and `remaining <= 0` in the source
is exactly `remainingSeconds = 0` here. -/
def remainingSeconds (lockoutTime now : Nat) : Nat :=
  (lockoutTime - now + 999) / 1000

/-- The observable seconds-remaining of the guard: 0 when not locked, else the
timer's ceiling computation. -/
def secondsRemaining (s : AppState) (now : Nat) : Nat :=
  if now < s.lockoutTime then remainingSeconds s.lockoutTime now else 0

/-- Result of a provider authentication call
(`signInWithEmailAndPassword` / `createUserWithEmailAndPassword` +
`sendEmailVerification`), with the thrown error's message on failure. -/
inductive ProviderResult where
  | success
  | failure (msg : String)
deriving DecidableEq, Repr

/-- The path taken by one run of `handleAuthSubmit`, tagging which exit the
source function took. -/
inductive Outcome where
  | rateLimited
  | passwordMismatch
  | loginSuccess
  | lockedOut (seconds : Nat)
  | authFailed (providerMessage : String) (attemptsRemaining : Nat)
  | signupSuccess
  | signupFailed (providerMessage : String)
deriving DecidableEq, Repr

/-- Whether the corresponding path of `handleAuthSubmit` reaches a provider
call: the two early `return`s (lockout check A and password check B) happen
before any `await`, every other path awaits the provider. -/
def providerCalled : Outcome → Bool
  | .rateLimited => false
  | .passwordMismatch => false
  | _ => true

/-- `error.message.replace('Firebase: ', '').replace('auth/', '')`.
(JS `replace` with a string pattern replaces only the first occurrence;
`String.replace` replaces all — the difference is immaterial to the
properties proved here, which never inspect repeated patterns.) -/
def cleanMsg (m : String) : String :=
  (m.replace "Firebase: " "").replace "auth/" ""

/-- `handleAuthSubmit` (part_001 lines 85-143).  `now` is `Date.now()` at the
time of the submission, `provider` the outcome of the awaited provider call on
the paths that reach it.  Setting `lockoutTime` re-runs the `[lockoutTime]`
effect, which re-installs or clears the countdown interval
(`intervalActive`). -/
def handleAuthSubmit (s : AppState) (now : Nat) (provider : ProviderResult) :
    AppState × Outcome :=
  -- setError(''); setMessage('') happen first on every path, then:
  -- A. Check if Locked Out — return before any provider call
  if now < s.lockoutTime then
    ({ s with error := "", message := "" }, .rateLimited)
  -- B. Check Passwords (Signup only) — return before any provider call
  else if !s.isLogin && s.password != s.confirmPassword then
    ({ s with error := "Passwords do not match.", message := "" }, .passwordMismatch)
  else
    match s.isLogin, provider with
    | true, .success =>
        -- Success! Clear any existing attempts
        ({ s with error := "", message := "", attempts := 0, lockoutTime := 0,
                  storage := { loginAttempts := none, lockoutUntil := none },
                  intervalActive := false, loading := false },
         .loginSuccess)
    | true, .failure msg =>
        -- C. Handle Failed Login Attempts: newAttempts = attempts + 1
        if MAX_ATTEMPTS ≤ s.attempts + 1 then
          ({ s with error := s!"Too many failed attempts. Locked for {COOLDOWN_SECONDS}s.",
                    message := "", attempts := s.attempts + 1,
                    lockoutTime := now + COOLDOWN_SECONDS * 1000,
                    storage := { loginAttempts := some (s.attempts + 1),
                                 lockoutUntil := some (now + COOLDOWN_SECONDS * 1000) },
                    intervalActive := decide (now < now + COOLDOWN_SECONDS * 1000),
                    loading := false },
           .lockedOut COOLDOWN_SECONDS)
        else
          ({ s with error := s!"{cleanMsg msg} ({MAX_ATTEMPTS - s.attempts - 1} attempts remaining)",
                    message := "", attempts := s.attempts + 1,
                    storage := { s.storage with loginAttempts := some (s.attempts + 1) },
                    loading := false },
           .authFailed (cleanMsg msg) (MAX_ATTEMPTS - (s.attempts + 1)))
    | false, .success =>
        ({ s with error := "", message := "Verification email sent! Please check your inbox.",
                  loading := false },
         .signupSuccess)
    | false, .failure msg =>
        ({ s with error := cleanMsg msg, message := "", loading := false },
         .signupFailed (cleanMsg msg))

/-- One firing of the lockout-countdown interval body (part_001 lines 62-78):
if the remaining time is up, reset everything; otherwise update the countdown.
Firing presupposes the interval is installed (`intervalActive`). -/
def lockoutTick (s : AppState) (now : Nat) : AppState :=
  if remainingSeconds s.lockoutTime now = 0 then
    -- Time is up! Reset everything (and the interval clears itself).
    { s with lockoutTime := 0, attempts := 0,
             storage := { loginAttempts := none, lockoutUntil := none },
             error := "", intervalActive := false }
  else
    { s with timeLeft := remainingSeconds s.lockoutTime now,
             error := s!"Too many attempts. Please wait {remainingSeconds s.lockoutTime now}s." }

/-- `handleLogout` (part_001 lines 189-201): on success clears session/UI data
(`user` goes to `none` through the `onAuthStateChanged` listener); on failure
only sets the error message.  Never touches attempts, lockout or storage. -/
def handleLogout (s : AppState) (r : Except String Unit) : AppState :=
  match r with
  | .ok _ =>
      { s with protectedData := "", email := "", password := "",
               message := "", error := "", user := none }
  | .error msg => { s with error := msg }

/-- `toggleAuthMode` (part_001 lines 180-187): attempts are deliberately kept
when switching modes. -/
def toggleAuthMode (s : AppState) : AppState :=
  { s with isLogin := !s.isLogin, error := "", message := "", confirmPassword := "" }

/-- Result tag for `checkVerificationStatus`. -/
inductive GateResult where
  | verified
  | notVerified
  | refreshFailed
deriving DecidableEq, Repr

/-- `checkVerificationStatus` (part_001 lines 160-178): asks the provider to
reload the current user; on success caches the fresh record (`setUser`), on
failure only reports the error — the cached user is left untouched. -/
def checkVerificationStatus (s : AppState) (reload : Except Unit User) :
    AppState × GateResult :=
  match reload with
  | .ok u =>
      if u.emailVerified then
        ({ s with user := some u, error := "",
                  message := "Email verified! Unlocking dashboard...",
                  loading := false },
         .verified)
      else
        ({ s with user := some u,
                  error := "Email is not verified yet. Please check your inbox.",
                  loading := false },
         .notVerified)
  | .error _ =>
      ({ s with error := "Error checking status. Try refreshing the page.",
                loading := false },
       .refreshFailed)

/-- Result tag for `handleResendVerification`. -/
inductive ResendResult where
  | sent
  | waitBeforeRetry
deriving DecidableEq, Repr

/-- `handleResendVerification` (part_001 lines 145-158): the catch block is
unconditional — every provider error, whatever its code, yields the
wait-before-retrying message. -/
def handleResendVerification (s : AppState) (r : Except String Unit) :
    AppState × ResendResult :=
  match r with
  | .ok _ =>
      ({ s with error := "", message := "New verification email sent.",
                loading := false },
       .sent)
  | .error _ =>
      ({ s with error := "Please wait a few minutes before trying again.",
                message := "", loading := false },
       .waitBeforeRetry)

/-- Modelled from the spec: the identity provider signals resend rate limiting
through a distinguished error code (Firebase: `auth/too-many-requests`).  The
source never inspects the error's code, so this predicate exists only at the
provider boundary. -/
def isRateLimitSignal (code : String) : Bool :=
  code = "auth/too-many-requests"

/-- The submit button's `disabled={loading || isLocked}` attribute. -/
def submitDisabled (s : AppState) (now : Nat) : Bool :=
  s.loading || isLocked s now

/-- The events the app reacts to; each carries the `Date.now()` instant and/or
provider result it depends on.  `restart` is a page reload: the component
remounts and re-initializes from the persisted storage. -/
inductive Event where
  | submit (now : Nat) (provider : ProviderResult)
  | tick (now : Nat)
  | logout (r : Except String Unit)
  | toggle
  | resend (r : Except String Unit)
  | checkStatus (r : Except Unit User)
  | restart (now : Nat)
deriving Repr

/-- The state transition performed by each event. -/
def step (s : AppState) : Event → AppState
  | .submit now p => (handleAuthSubmit s now p).1
  | .tick now => lockoutTick s now
  | .logout r => handleLogout s r
  | .toggle => toggleAuthMode s
  | .resend r => (handleResendVerification s r).1
  | .checkStatus r => (checkVerificationStatus s r).1
  | .restart now => initApp s.storage now

/-- When an event can actually fire: the countdown interval body only runs
while the interval is installed. -/
def EventWF (s : AppState) : Event → Prop
  | .tick _ => s.intervalActive = true
  | _ => True

/-- States the app can actually be in: an initial mount on arbitrary persisted
storage, followed by any sequence of well-formed events. -/
inductive Reachable : AppState → Prop where
  | init (storage : Storage) (now : Nat) : Reachable (initApp storage now)
  | next {s : AppState} (e : Event) : Reachable s → EventWF s e → Reachable (step s e)

/-- The in-memory counters agree with the persisted storage (absent key read
as 0, as the initializers do). -/
def Synced (s : AppState) : Prop :=
  s.storage.loginAttempts.getD 0 = s.attempts ∧
  s.storage.lockoutUntil.getD 0 = s.lockoutTime

theorem synced_init (storage : Storage) (now : Nat) : Synced (initApp storage now) := by
  constructor <;> rfl

theorem synced_step {s : AppState} (hs : Synced s) (e : Event) : Synced (step s e) := by
  obtain ⟨h1, h2⟩ := hs
  cases e with
  | submit now p =>
      show Synced (handleAuthSubmit s now p).1
      unfold handleAuthSubmit
      split
      · exact ⟨h1, h2⟩
      · split
        · exact ⟨h1, h2⟩
        · cases hl : s.isLogin <;> cases p <;> simp only [hl]
          · exact ⟨h1, h2⟩
          · exact ⟨h1, h2⟩
          · exact ⟨rfl, rfl⟩
          · split
            · exact ⟨rfl, rfl⟩
            · exact ⟨rfl, h2⟩
  | tick now =>
      show Synced (lockoutTick s now)
      unfold lockoutTick
      split
      · exact ⟨rfl, rfl⟩
      · exact ⟨h1, h2⟩
  | logout r => cases r <;> exact ⟨h1, h2⟩
  | toggle => exact ⟨h1, h2⟩
  | resend r => cases r <;> exact ⟨h1, h2⟩
  | checkStatus r =>
      cases r with
      | ok u =>
          obtain ⟨b⟩ := u
          cases b <;> exact ⟨h1, h2⟩
      | error e => exact ⟨h1, h2⟩
  | restart now => exact ⟨rfl, rfl⟩

theorem reachable_synced {s : AppState} (h : Reachable s) : Synced s := by
  induction h with
  | init storage now => exact synced_init storage now
  | next e _ _ ih => exact synced_step ih e

theorem remainingSeconds_eq_zero_iff (lockoutTime now : Nat) :
    remainingSeconds lockoutTime now = 0 ↔ lockoutTime ≤ now := by
  unfold remainingSeconds
  omega

/-- C1: in every state where the guard is locked (`lockoutUntil` strictly in
the future), `handleAuthSubmit` returns the rate-limited rejection without a
provider call and leaves `failureCount`, `lockoutUntil` and the persisted
storage unchanged — the rejected submission does not count as a failure. -/
theorem C1_locked_submission_rejected (s : AppState) (now : Nat) (p : ProviderResult)
    (h : now < s.lockoutTime) :
    (handleAuthSubmit s now p).2 = Outcome.rateLimited ∧
    providerCalled (handleAuthSubmit s now p).2 = false ∧
    (handleAuthSubmit s now p).1.attempts = s.attempts ∧
    (handleAuthSubmit s now p).1.lockoutTime = s.lockoutTime ∧
    (handleAuthSubmit s now p).1.storage = s.storage := by
  unfold handleAuthSubmit
  rw [if_pos h]
  exact ⟨rfl, rfl, rfl, rfl, rfl⟩

theorem C1_locked_submission_rejected_witness :
    (1000 : Nat) < (initApp { loginAttempts := some 3, lockoutUntil := some 30000 } 0).lockoutTime ∧
    ((handleAuthSubmit (initApp { loginAttempts := some 3, lockoutUntil := some 30000 } 0)
        1000 ProviderResult.success).2 = Outcome.rateLimited ∧
     providerCalled (handleAuthSubmit (initApp { loginAttempts := some 3, lockoutUntil := some 30000 } 0)
        1000 ProviderResult.success).2 = false ∧
     (handleAuthSubmit (initApp { loginAttempts := some 3, lockoutUntil := some 30000 } 0)
        1000 ProviderResult.success).1.attempts
        = (initApp { loginAttempts := some 3, lockoutUntil := some 30000 } 0).attempts ∧
     (handleAuthSubmit (initApp { loginAttempts := some 3, lockoutUntil := some 30000 } 0)
        1000 ProviderResult.success).1.lockoutTime
        = (initApp { loginAttempts := some 3, lockoutUntil := some 30000 } 0).lockoutTime ∧
     (handleAuthSubmit (initApp { loginAttempts := some 3, lockoutUntil := some 30000 } 0)
        1000 ProviderResult.success).1.storage
        = (initApp { loginAttempts := some 3, lockoutUntil := some 30000 } 0).storage) :=
  ⟨by decide,
   C1_locked_submission_rejected (initApp { loginAttempts := some 3, lockoutUntil := some 30000 } 0)
     1000 ProviderResult.success (by decide)⟩

/-- C6: `handleLogout` never touches `failureCount`, `lockoutUntil` or the
persisted storage, on either the success or the failure branch — attempt
history survives logout. -/
theorem C6_logout_preserves_attempt_state (s : AppState) (r : Except String Unit) :
    (handleLogout s r).attempts = s.attempts ∧
    (handleLogout s r).lockoutTime = s.lockoutTime ∧
    (handleLogout s r).storage = s.storage := by
  cases r <;> exact ⟨rfl, rfl, rfl⟩

/-- C7: when the provider reload fails, `checkVerificationStatus` reports the
refresh failure and leaves the cached user — in particular the cached
`emailVerified` value — unchanged. -/
theorem C7_refresh_failure_keeps_cached_status (s : AppState) :
    (checkVerificationStatus s (Except.error ())).2 = GateResult.refreshFailed ∧
    (checkVerificationStatus s (Except.error ())).1.user = s.user ∧
    Option.map User.emailVerified (checkVerificationStatus s (Except.error ())).1.user
      = Option.map User.emailVerified s.user :=
  ⟨rfl, rfl, rfl⟩

/-- C8 counterexample: a generic provider failure (here a network error, not a
rate-limit signal) is nevertheless surfaced by `handleResendVerification` as
the wait-before-retrying message — generic failures are reported as
throttling, contradicting the claim that the two are distinguished. -/
theorem C8_generic_failure_reported_as_throttle :
    isRateLimitSignal "auth/network-request-failed" = false ∧
    (handleResendVerification (initApp { loginAttempts := none, lockoutUntil := none } 0)
        (Except.error "auth/network-request-failed")).2 = ResendResult.waitBeforeRetry ∧
    (handleResendVerification (initApp { loginAttempts := none, lockoutUntil := none } 0)
        (Except.error "auth/network-request-failed")).1.error
      = "Please wait a few minutes before trying again." :=
  ⟨by decide, rfl, rfl⟩

/-- C8 amended: `handleResendVerification` surfaces the wait-before-retrying
message on every provider failure, whatever the provider's error code — it
does not distinguish rate-limit signals from generic failures. -/
theorem C8_every_failure_reported_as_throttle (s : AppState) (code : String) :
    (handleResendVerification s (Except.error code)).2 = ResendResult.waitBeforeRetry ∧
    (handleResendVerification s (Except.error code)).1.error
      = "Please wait a few minutes before trying again." :=
  ⟨rfl, rfl⟩

/-- C2: a provider-failed login attempt while the guard is open increments
`failureCount` by exactly 1 (persisted); if the new count reaches
`maxAttempts` the guard locks with `lockoutUntil = now + cooldownSeconds`
(in milliseconds, persisted), otherwise it stays open and the auth-failed
outcome carries `attemptsRemaining = max(0, maxAttempts - failureCount)` for
the new count. -/
theorem C2_provider_failure_transition (s : AppState) (now : Nat) (msg : String)
    (hopen : s.lockoutTime ≤ now) (hlogin : s.isLogin = true) :
    (handleAuthSubmit s now (ProviderResult.failure msg)).1.attempts = s.attempts + 1 ∧
    (handleAuthSubmit s now (ProviderResult.failure msg)).1.storage.loginAttempts
        = some (s.attempts + 1) ∧
    (MAX_ATTEMPTS ≤ s.attempts + 1 →
        (handleAuthSubmit s now (ProviderResult.failure msg)).1.lockoutTime
            = now + COOLDOWN_SECONDS * 1000 ∧
        (handleAuthSubmit s now (ProviderResult.failure msg)).1.storage.lockoutUntil
            = some (now + COOLDOWN_SECONDS * 1000) ∧
        isLocked (handleAuthSubmit s now (ProviderResult.failure msg)).1 now = true) ∧
    (s.attempts + 1 < MAX_ATTEMPTS →
        (handleAuthSubmit s now (ProviderResult.failure msg)).1.lockoutTime = s.lockoutTime ∧
        (handleAuthSubmit s now (ProviderResult.failure msg)).2
            = Outcome.authFailed (cleanMsg msg) (MAX_ATTEMPTS - (s.attempts + 1)) ∧
        ((MAX_ATTEMPTS - (s.attempts + 1) : Nat) : ℤ)
            = max 0 ((MAX_ATTEMPTS : ℤ) - ((s.attempts : ℤ) + 1))) := by
  unfold handleAuthSubmit
  rw [if_neg (not_lt.mpr hopen), hlogin]
  simp only [Bool.not_true, Bool.false_and, Bool.false_eq_true, if_false]
  by_cases hmax : MAX_ATTEMPTS ≤ s.attempts + 1
  · rw [if_pos hmax]
    refine ⟨rfl, rfl, fun _ => ⟨rfl, rfl, ?_⟩, fun hlt => absurd hmax (not_le.mpr hlt)⟩
    simp only [isLocked, decide_eq_true_eq]
    have : 0 < COOLDOWN_SECONDS * 1000 := by norm_num [COOLDOWN_SECONDS]
    omega
  · rw [if_neg hmax]
    exact ⟨rfl, rfl, fun h => absurd h hmax, fun hlt => ⟨rfl, rfl, by omega⟩⟩

theorem C2_provider_failure_transition_witness :
    (initApp { loginAttempts := some 1, lockoutUntil := none } 0).lockoutTime ≤ 5000 ∧
    (initApp { loginAttempts := some 1, lockoutUntil := none } 0).isLogin = true ∧
    ((handleAuthSubmit (initApp { loginAttempts := some 1, lockoutUntil := none } 0)
        5000 (ProviderResult.failure "wrong-password")).1.attempts
      = (initApp { loginAttempts := some 1, lockoutUntil := none } 0).attempts + 1) := by
  refine ⟨by decide, by decide, ?_⟩
  exact (C2_provider_failure_transition
    (initApp { loginAttempts := some 1, lockoutUntil := none } 0)
    5000 "wrong-password" (by decide) (by decide)).1

/-- C10: failed signup attempts never modify the attempt state: a
password/confirmation mismatch is rejected locally before any provider call
and changes nothing, and a provider-failed signup leaves `failureCount`,
`lockoutUntil` and the persisted storage untouched — only login failures feed
the rate limiter. -/
theorem C10_signup_never_touches_attempt_state (s : AppState) (now : Nat) (msg : String)
    (hsignup : s.isLogin = false) (hopen : s.lockoutTime ≤ now) :
    (s.password ≠ s.confirmPassword →
        ∀ p, (handleAuthSubmit s now p).2 = Outcome.passwordMismatch ∧
             providerCalled (handleAuthSubmit s now p).2 = false ∧
             (handleAuthSubmit s now p).1.attempts = s.attempts ∧
             (handleAuthSubmit s now p).1.lockoutTime = s.lockoutTime ∧
             (handleAuthSubmit s now p).1.storage = s.storage) ∧
    ((handleAuthSubmit s now (ProviderResult.failure msg)).1.attempts = s.attempts ∧
     (handleAuthSubmit s now (ProviderResult.failure msg)).1.lockoutTime = s.lockoutTime ∧
     (handleAuthSubmit s now (ProviderResult.failure msg)).1.storage = s.storage) := by
  constructor
  · intro hne p
    unfold handleAuthSubmit
    rw [if_neg (not_lt.mpr hopen), hsignup]
    have hcond : (!false && s.password != s.confirmPassword) = true := by
      simp [bne_iff_ne, hne]
    rw [if_pos hcond]
    exact ⟨rfl, rfl, rfl, rfl, rfl⟩
  · unfold handleAuthSubmit
    rw [if_neg (not_lt.mpr hopen), hsignup]
    by_cases hne : (!false && s.password != s.confirmPassword) = true
    · rw [if_pos hne]
      exact ⟨rfl, rfl, rfl⟩
    · rw [if_neg hne]
      exact ⟨rfl, rfl, rfl⟩

theorem C10_signup_never_touches_attempt_state_witness :
    ({ initApp { loginAttempts := some 2, lockoutUntil := none } 0 with
        isLogin := false, password := "a", confirmPassword := "a" } : AppState).isLogin = false ∧
    (handleAuthSubmit
        { initApp { loginAttempts := some 2, lockoutUntil := none } 0 with
            isLogin := false, password := "a", confirmPassword := "a" }
        7000 (ProviderResult.failure "email-already-in-use")).1.attempts
      = ({ initApp { loginAttempts := some 2, lockoutUntil := none } 0 with
            isLogin := false, password := "a", confirmPassword := "a" } : AppState).attempts := by
  refine ⟨rfl, ?_⟩
  exact (C10_signup_never_touches_attempt_state
    { initApp { loginAttempts := some 2, lockoutUntil := none } 0 with
        isLogin := false, password := "a", confirmPassword := "a" }
    7000 "email-already-in-use" rfl (by decide)).2.1

theorem ceil_remaining (m : Nat) :
    ⌈(m : ℚ) / 1000⌉ = (((m + 999) / 1000 : Nat) : ℤ) := by
  set q : Nat := (m + 999) / 1000 with hq
  have h1 : 1000 * q ≤ m + 999 := by omega
  have h2 : m + 999 < 1000 * q + 1000 := by omega
  rw [Int.ceil_eq_iff]
  constructor
  · rw [lt_div_iff₀ (by norm_num : (0:ℚ) < 1000)]
    have h1q : (1000 : ℚ) * (q : ℚ) ≤ (m : ℚ) + 999 := by exact_mod_cast h1
    push_cast
    linarith
  · rw [div_le_iff₀ (by norm_num : (0:ℚ) < 1000)]
    have h3 : m ≤ 1000 * q := by omega
    have h3q : (m : ℚ) ≤ 1000 * (q : ℚ) := by exact_mod_cast h3
    push_cast
    linarith

/-- C4: `secondsRemaining` is 0 whenever the guard is open (including at the
exact boundary `now = lockoutUntil`, which counts as expired, so the next
login submission is forwarded to the provider), and while locked it equals
`ceil((lockoutUntil - now)/1000)` floored at 0. -/
theorem C4_seconds_remaining_spec (s : AppState) (now : Nat) :
    (s.lockoutTime ≤ now →
        secondsRemaining s now = 0 ∧ isLocked s now = false ∧
        (s.isLogin = true → ∀ p, providerCalled (handleAuthSubmit s now p).2 = true)) ∧
    (now < s.lockoutTime →
        isLocked s now = true ∧
        ((secondsRemaining s now : ℤ)
            = max 0 ⌈((s.lockoutTime : ℚ) - (now : ℚ)) / 1000⌉)) := by
  constructor
  · intro h
    refine ⟨?_, ?_, ?_⟩
    · unfold secondsRemaining
      rw [if_neg (not_lt.mpr h)]
    · simp [isLocked, not_lt.mpr h]
    · intro hlogin p
      unfold handleAuthSubmit
      rw [if_neg (not_lt.mpr h), hlogin]
      simp only [Bool.not_true, Bool.false_and, Bool.false_eq_true, if_false]
      cases p with
      | success => rfl
      | failure msg =>
          dsimp only
          by_cases hmax : MAX_ATTEMPTS ≤ s.attempts + 1
          · rw [if_pos hmax]; rfl
          · rw [if_neg hmax]; rfl
  · intro h
    refine ⟨by simp [isLocked, h], ?_⟩
    unfold secondsRemaining remainingSeconds
    rw [if_pos h]
    have hcast : (s.lockoutTime : ℚ) - (now : ℚ) = ((s.lockoutTime - now : ℕ) : ℚ) := by
      rw [Nat.cast_sub (le_of_lt h)]
    rw [hcast, ceil_remaining]
    omega

theorem C4_seconds_remaining_spec_witness :
    secondsRemaining (initApp { loginAttempts := none, lockoutUntil := some 10000 } 0) 10000 = 0 ∧
    ((secondsRemaining (initApp { loginAttempts := none, lockoutUntil := some 10000 } 0) 4500 : ℤ)
        = max 0 ⌈(((initApp { loginAttempts := none, lockoutUntil := some 10000 } 0).lockoutTime : ℚ)
                   - (4500 : ℚ)) / 1000⌉) := by
  constructor
  · exact ((C4_seconds_remaining_spec
      (initApp { loginAttempts := none, lockoutUntil := some 10000 } 0) 10000).1 (by decide)).1
  · exact ((C4_seconds_remaining_spec
      (initApp { loginAttempts := none, lockoutUntil := some 10000 } 0) 4500).2 (by decide)).2

/-- C5: initializing from persisted storage whose `lockoutUntil` is still in
the future puts the guard directly into the locked state (submissions are
rejected) with `secondsRemaining` within one second of the remaining time;
with no persisted state it starts open with `failureCount` 0. -/
theorem C5_initialization (storage : Storage) (now : Nat) :
    (∀ L, storage.lockoutUntil = some L → now < L →
        isLocked (initApp storage now) now = true ∧
        (∀ p, (handleAuthSubmit (initApp storage now) now p).2 = Outcome.rateLimited) ∧
        L - now ≤ 1000 * secondsRemaining (initApp storage now) now ∧
        1000 * secondsRemaining (initApp storage now) now < (L - now) + 1000) ∧
    (storage.loginAttempts = none → storage.lockoutUntil = none →
        (initApp storage now).attempts = 0 ∧ (initApp storage now).lockoutTime = 0 ∧
        isLocked (initApp storage now) now = false) := by
  constructor
  · intro L hL hfut
    have hlt : (initApp storage now).lockoutTime = L := by
      simp [initApp, hL]
    have hlock : now < (initApp storage now).lockoutTime := by rw [hlt]; exact hfut
    refine ⟨by simp [isLocked, hlock], ?_, ?_⟩
    · intro p
      unfold handleAuthSubmit
      rw [if_pos hlock]
    · unfold secondsRemaining remainingSeconds
      rw [if_pos hlock, hlt]
      omega
  · intro hA hB
    refine ⟨by simp [initApp, hA], by simp [initApp, hB], ?_⟩
    have : (initApp storage now).lockoutTime = 0 := by simp [initApp, hB]
    simp [isLocked, this]

theorem C5_initialization_witness :
    isLocked (initApp { loginAttempts := some 2, lockoutUntil := some 10000 } 0) 0 = true ∧
    (initApp { loginAttempts := none, lockoutUntil := none } 5).attempts = 0 := by
  constructor
  · exact ((C5_initialization { loginAttempts := some 2, lockoutUntil := some 10000 } 0).1
      10000 rfl (by decide)).1
  · exact ((C5_initialization { loginAttempts := none, lockoutUntil := none } 5).2 rfl rfl).1

/-- A submission that completes as a successful login: the guard is open, the
form is in login mode, and the provider accepts the credentials. -/
def LoginSuccessEvent (s : AppState) : Event → Prop
  | .submit now .success => s.lockoutTime ≤ now ∧ s.isLogin = true
  | _ => False

/-- A countdown-interval firing at or after the lockout deadline. -/
def LockoutExpiryEvent (s : AppState) : Event → Prop
  | .tick now => s.lockoutTime ≤ now
  | _ => False

theorem handleAuthSubmit_attempts_cases (s : AppState) (now : Nat) (p : ProviderResult) :
    (handleAuthSubmit s now p).1.attempts = s.attempts ∨
    (handleAuthSubmit s now p).1.attempts = s.attempts + 1 ∨
    ((handleAuthSubmit s now p).1.attempts = 0 ∧
        s.lockoutTime ≤ now ∧ s.isLogin = true ∧ p = ProviderResult.success) := by
  unfold handleAuthSubmit
  by_cases h1 : now < s.lockoutTime
  · rw [if_pos h1]; left; rfl
  · rw [if_neg h1]
    by_cases h2 : (!s.isLogin && s.password != s.confirmPassword) = true
    · rw [if_pos h2]; left; rfl
    · rw [if_neg h2]
      cases hl : s.isLogin <;> cases p
      · left; rfl
      · left; rfl
      · right; right; exact ⟨rfl, not_lt.mp h1, rfl, rfl⟩
      · right; left
        dsimp only
        by_cases hmax : MAX_ATTEMPTS ≤ s.attempts + 1
        · rw [if_pos hmax]
        · rw [if_neg hmax]

/-- C3: in every reachable state, `failureCount` resets to 0 exactly on a
successful login or a lockout expiry: both of those events zero the counter,
clear `lockoutUntil` and remove both persisted keys, and no other well-formed
event (including a process restart whose persisted `lockoutUntil` has already
passed) zeroes a nonzero counter. -/
theorem C3_reset_exactly_on_success_or_expiry
    (s : AppState) (hs : Reachable s) (e : Event) (he : EventWF s e) :
    (LoginSuccessEvent s e →
        (step s e).attempts = 0 ∧ (step s e).lockoutTime = 0 ∧
        (step s e).storage.loginAttempts = none ∧ (step s e).storage.lockoutUntil = none) ∧
    (LockoutExpiryEvent s e →
        (step s e).attempts = 0 ∧ (step s e).lockoutTime = 0 ∧
        (step s e).storage.loginAttempts = none ∧ (step s e).storage.lockoutUntil = none) ∧
    ((step s e).attempts = 0 → s.attempts = 0 ∨ LoginSuccessEvent s e ∨ LockoutExpiryEvent s e) := by
  cases e with
  | submit now p =>
      refine ⟨?_, fun h => h.elim, ?_⟩
      · intro hev
        cases p with
        | failure msg => exact hev.elim
        | success =>
            obtain ⟨hle, hlogin⟩ := hev
            simp only [step]
            unfold handleAuthSubmit
            rw [if_neg (not_lt.mpr hle), hlogin]
            exact ⟨rfl, rfl, rfl, rfl⟩
      · intro h0
        rcases handleAuthSubmit_attempts_cases s now p with hc | hc | hc
        · left
          have : (step s (Event.submit now p)).attempts = s.attempts := hc
          omega
        · exfalso
          have : (step s (Event.submit now p)).attempts = s.attempts + 1 := hc
          omega
        · right; left
          obtain ⟨-, hle, hlogin, hp⟩ := hc
          subst hp
          exact ⟨hle, hlogin⟩
  | tick now =>
      refine ⟨fun h => h.elim, ?_, ?_⟩
      · intro hle
        have h0 : remainingSeconds s.lockoutTime now = 0 :=
          (remainingSeconds_eq_zero_iff _ _).mpr hle
        simp only [step]
        unfold lockoutTick
        rw [if_pos h0]
        exact ⟨rfl, rfl, rfl, rfl⟩
      · intro h0
        by_cases hle : s.lockoutTime ≤ now
        · right; right; exact hle
        · left
          have hne : ¬ remainingSeconds s.lockoutTime now = 0 := by
            rw [remainingSeconds_eq_zero_iff]; exact hle
          have heq : (step s (Event.tick now)).attempts = s.attempts := by
            show (lockoutTick s now).attempts = s.attempts
            unfold lockoutTick
            rw [if_neg hne]
          omega
  | logout r =>
      refine ⟨fun h => h.elim, fun h => h.elim, fun h0 => Or.inl ?_⟩
      cases r <;> exact h0
  | toggle =>
      exact ⟨fun h => h.elim, fun h => h.elim, fun h0 => Or.inl h0⟩
  | resend r =>
      refine ⟨fun h => h.elim, fun h => h.elim, fun h0 => Or.inl ?_⟩
      cases r <;> exact h0
  | checkStatus r =>
      refine ⟨fun h => h.elim, fun h => h.elim, fun h0 => Or.inl ?_⟩
      cases r with
      | ok u => obtain ⟨b⟩ := u; cases b <;> exact h0
      | error e => exact h0
  | restart now =>
      refine ⟨fun h => h.elim, fun h => h.elim, fun h0 => Or.inl ?_⟩
      have hsync : s.storage.loginAttempts.getD 0 = s.attempts := (reachable_synced hs).1
      have heq : (step s (Event.restart now)).attempts = s.attempts := hsync
      omega

theorem C3_reset_exactly_on_success_or_expiry_witness :
    (LoginSuccessEvent (initApp { loginAttempts := none, lockoutUntil := none } 0) Event.toggle →
        (step (initApp { loginAttempts := none, lockoutUntil := none } 0) Event.toggle).attempts = 0 ∧
        (step (initApp { loginAttempts := none, lockoutUntil := none } 0) Event.toggle).lockoutTime = 0 ∧
        (step (initApp { loginAttempts := none, lockoutUntil := none } 0) Event.toggle).storage.loginAttempts = none ∧
        (step (initApp { loginAttempts := none, lockoutUntil := none } 0) Event.toggle).storage.lockoutUntil = none) ∧
    (LockoutExpiryEvent (initApp { loginAttempts := none, lockoutUntil := none } 0) Event.toggle →
        (step (initApp { loginAttempts := none, lockoutUntil := none } 0) Event.toggle).attempts = 0 ∧
        (step (initApp { loginAttempts := none, lockoutUntil := none } 0) Event.toggle).lockoutTime = 0 ∧
        (step (initApp { loginAttempts := none, lockoutUntil := none } 0) Event.toggle).storage.loginAttempts = none ∧
        (step (initApp { loginAttempts := none, lockoutUntil := none } 0) Event.toggle).storage.lockoutUntil = none) ∧
    ((step (initApp { loginAttempts := none, lockoutUntil := none } 0) Event.toggle).attempts = 0 →
        (initApp { loginAttempts := none, lockoutUntil := none } 0).attempts = 0 ∨
        LoginSuccessEvent (initApp { loginAttempts := none, lockoutUntil := none } 0) Event.toggle ∨
        LockoutExpiryEvent (initApp { loginAttempts := none, lockoutUntil := none } 0) Event.toggle) :=
  C3_reset_exactly_on_success_or_expiry
    (initApp { loginAttempts := none, lockoutUntil := none } 0)
    (Reachable.init { loginAttempts := none, lockoutUntil := none } 0)
    Event.toggle True.intro

/-- C9 counterexample: in a state where a provider call is in flight
(`loading = true`) and the guard is open, a second submission is NOT rejected:
the handler reaches the provider and increments the failure counter — there is
no busy rejection anywhere in `handleAuthSubmit`. -/
theorem C9_inflight_submission_not_rejected :
    ({ initApp { loginAttempts := none, lockoutUntil := none } 0 with
        loading := true } : AppState).loading = true ∧
    providerCalled (handleAuthSubmit
        { initApp { loginAttempts := none, lockoutUntil := none } 0 with loading := true }
        0 (ProviderResult.failure "wrong-password")).2 = true ∧
    (handleAuthSubmit
        { initApp { loginAttempts := none, lockoutUntil := none } 0 with loading := true }
        0 (ProviderResult.failure "wrong-password")).1.attempts
      = ({ initApp { loginAttempts := none, lockoutUntil := none } 0 with
            loading := true } : AppState).attempts + 1 :=
  ⟨rfl, rfl, rfl⟩

/-- C9 amended: `handleAuthSubmit` never consults the in-flight flag — a
submission arriving while a prior provider call is pending is processed
exactly as one arriving when idle (same outcome, same attempt-state update);
the only protection is the UI disabling the submit button while loading. -/
theorem C9_no_serialization_in_handler (s : AppState) (now : Nat) (p : ProviderResult) :
    (handleAuthSubmit { s with loading := true } now p).2
        = (handleAuthSubmit { s with loading := false } now p).2 ∧
    (handleAuthSubmit { s with loading := true } now p).1.attempts
        = (handleAuthSubmit { s with loading := false } now p).1.attempts ∧
    (handleAuthSubmit { s with loading := true } now p).1.lockoutTime
        = (handleAuthSubmit { s with loading := false } now p).1.lockoutTime ∧
    (handleAuthSubmit { s with loading := true } now p).1.storage
        = (handleAuthSubmit { s with loading := false } now p).1.storage ∧
    submitDisabled { s with loading := true } now = true := by
  unfold handleAuthSubmit submitDisabled
  by_cases h1 : now < s.lockoutTime
  · simp only [if_pos h1]
    refine ⟨?_, ?_, ?_, ?_, ?_⟩ <;> trivial
  · simp only [if_neg h1]
    by_cases h2 : (!s.isLogin && s.password != s.confirmPassword) = true
    · simp only [if_pos h2]
      refine ⟨?_, ?_, ?_, ?_, ?_⟩ <;> trivial
    · simp only [if_neg h2]
      refine ⟨?_, ?_, ?_, ?_, ?_⟩ <;> trivial

end LoginSystem
